import Mathlib

/-!
Verification of the KANOSYM conversational tool-use orchestration engine
(`backend/noira/chat_controller.py`, `backend/noira/file_access_service.py`,
`backend/api.py`) against its natural-language specification.

The Python code is shallowly embedded as executable Lean definitions.
External collaborators (the OpenAI completion provider, the file system
behind the tool handlers, `json.loads`, the system-prompt file) are passed
in as function-valued parameters of an environment record; everything the
orchestration code itself does (loop control, tag parsing, prompt
assembly, history mutation, error capture) is modelled concretely.
-/

/- ### String utilities

`re.search(r'<response>(.*?)</response>', text, re.DOTALL)` finds the
leftmost position where the literal `<response>` occurs and then the
shortest (lazy) body ending at the next literal `</response>`.  Over
`List Char` this is: first occurrence of the open tag, then the first
occurrence of the close tag after it. -/

/-- Tests whether `pat` is a prefix of `l`
(haystack first, pattern second). -/
def listStartsWith : List Char → List Char → Bool
  | _, [] => true
  | [], _ :: _ => false
  | c :: t, p :: ps => c == p && listStartsWith t ps

/-- First index `≥` the accumulator at which `pat` occurs in the list. -/
def findSubAux (pat : List Char) : List Char → Nat → Option Nat
  | [], i => if listStartsWith [] pat then some i else none
  | c :: t, i => if listStartsWith (c :: t) pat then some i else findSubAux pat t (i + 1)

/-- Index of the first occurrence of `pat` in `hay`, if any. -/
def findSub (hay pat : List Char) : Option Nat :=
  findSubAux pat hay 0

/-- Whether `pat` occurs in `hay` as a contiguous substring. -/
def strContains (hay pat : String) : Bool :=
  (findSub hay.data pat.data).isSome

/-- Python whitespace characters stripped by `str.strip()` (ASCII part). -/
def isPyWs (c : Char) : Bool :=
  c == ' ' || c == '\t' || c == '\n' || c == '\r' || c == Char.ofNat 11 || c == Char.ofNat 12

/-- Leading and trailing whitespace removal, modelling Python `str.strip()`. -/
def stripChars (l : List Char) : List Char :=
  ((l.dropWhile isPyWs).reverse.dropWhile isPyWs).reverse

/-- Python `str.strip()` on strings. -/
def pyStrip (s : String) : String :=
  ⟨stripChars s.data⟩

/-- Character list of the literal `<response>`. -/
def respOpen : List Char := "<response>".data

/-- Character list of the literal `</response>`. -/
def respClose : List Char := "</response>".data

/-- Core of the tag search: position of the first `<response>`, then the
first `</response>` after it; the enclosed characters are the match group. -/
def extractAux (cs : List Char) : Option (List Char) :=
  match findSub cs respOpen with
  | none => none
  | some i =>
    let rest := cs.drop (i + respOpen.length)
    match findSub rest respClose with
    | none => none
    | some j => some (rest.take j)

/-- Models `re.search(r'<response>(.*?)</response>', text, re.DOTALL)` followed by
`.group(1).strip()`, exactly as applied at every call site of the
controller (chat_controller.py lines 245-247, 388-393, 463-469). -/
def extract_response (text : String) : Option String :=
  match extractAux text.data with
  | none => none
  | some l => some ⟨stripChars l⟩

/-- A pattern has no proper self-overlap when no non-trivial suffix of it is
also a prefix of it; both response tags have this property because `<`
occurs in them only at position 0. -/
def selfOverlapFree (pat : List Char) : Bool :=
  (List.range pat.length).all fun k => k == 0 || !(pat.drop k == pat.take (pat.length - k))

/-- A single apostrophe character, written via its code point. -/
def apos : String := ⟨[Char.ofNat 39]⟩

/- ### Tool dispatch (`NoiraFileAccessService.execute_tool_call`,
file_access_service.py lines 30-97)

Tool arguments are a parsed JSON object, modelled as an opaque key-value
list; the fourteen `_handle_*` methods operate on the file system and are
therefore external collaborators, passed in as functions that either
return a result dictionary or raise (`Except.error`). -/

abbrev Args := List (String × String)

/-- A tool-result dictionary.  The handlers return dictionaries whose keys
vary; each key is modelled as an optional field, `none` meaning the key is
absent (so that the `KeyError` raised by a direct `result[...]` access on a
missing key can be modelled faithfully). -/
structure ToolResult where
  success : Bool
  data : Option String
  error : Option String
  summary : Option String
deriving DecidableEq

/-- The fourteen tool handlers of `NoiraFileAccessService`, external
because they read and write project files. -/
structure ToolHandlers where
  load_project : Args → Except String ToolResult
  load_test_run : Args → Except String ToolResult
  search_test_runs : Args → Except String ToolResult
  list_projects : Args → Except String ToolResult
  update_block_position : Args → Except String ToolResult
  update_block_parameters : Args → Except String ToolResult
  add_block : Args → Except String ToolResult
  remove_block : Args → Except String ToolResult
  create_project : Args → Except String ToolResult
  delete_test_run : Args → Except String ToolResult
  delete_project : Args → Except String ToolResult
  fetch_asset_volatility : Args → Except String ToolResult
  estimate_correlation_matrix : Args → Except String ToolResult
  run_sensitivity_test : Args → Except String ToolResult

/-- The names recognised by the `if`/`elif` chain of `execute_tool_call`. -/
def knownToolNames : List String :=
  ["load_project", "load_test_run", "search_test_runs", "list_projects",
   "update_block_position", "update_block_parameters", "add_block", "remove_block",
   "create_project", "delete_test_run", "delete_project", "fetch_asset_volatility",
   "estimate_correlation_matrix", "run_sensitivity_test"]

/-- The `if`/`elif` dispatch chain inside the `try` block
(file_access_service.py lines 44-90): a known name calls its handler
(which may raise), an unknown name returns the unknown-tool dictionary. -/
def dispatchTool (h : ToolHandlers) (tool_name : String) (arguments : Args) :
    Except String ToolResult :=
  if tool_name = "load_project" then h.load_project arguments
  else if tool_name = "load_test_run" then h.load_test_run arguments
  else if tool_name = "search_test_runs" then h.search_test_runs arguments
  else if tool_name = "list_projects" then h.list_projects arguments
  else if tool_name = "update_block_position" then h.update_block_position arguments
  else if tool_name = "update_block_parameters" then h.update_block_parameters arguments
  else if tool_name = "add_block" then h.add_block arguments
  else if tool_name = "remove_block" then h.remove_block arguments
  else if tool_name = "create_project" then h.create_project arguments
  else if tool_name = "delete_test_run" then h.delete_test_run arguments
  else if tool_name = "delete_project" then h.delete_project arguments
  else if tool_name = "fetch_asset_volatility" then h.fetch_asset_volatility arguments
  else if tool_name = "estimate_correlation_matrix" then h.estimate_correlation_matrix arguments
  else if tool_name = "run_sensitivity_test" then h.run_sensitivity_test arguments
  else
    Except.ok
      { success := false, data := none, summary := none,
        error := some ("Unknown tool: " ++ tool_name) }

/-- Models `NoiraFileAccessService.execute_tool_call`: the whole dispatch runs
inside `try`/`except Exception`, so a raising handler is converted into a
`success=false` dictionary and the function itself never raises
(file_access_service.py lines 41-97). -/
def execute_tool_call (h : ToolHandlers) (tool_name : String) (arguments : Args) : ToolResult :=
  match dispatchTool h tool_name arguments with
  | Except.ok r => r
  | Except.error e =>
    { success := false, data := none, summary := none,
      error := some ("Error executing tool: " ++ e) }

/- ### Chat controller (`ChatController.send_message`,
chat_controller.py lines 106-532)

The OpenAI completion client is an external collaborator: it is modelled
as a function of the index of the completion call within the run (the
index stands for the full, evolving message list: rolling history, the
user message and the accumulated tool-call/tool-result messages), of
whether tool-calling is enabled for the request (`tools=NOIRA_TOOLS,
tool_choice="auto"` vs. no tools), and of the system prompt, which is
modelled explicitly because the specification constrains its contents.
`Except.error` models a raised exception.  `json.loads` on the tool-call
argument string and `_build_system_message` (which reads the external
`system_prompt.txt` and serialises the context dict) are likewise
environment functions.  Token-usage accounting (lines 477-495) is pure
arithmetic over provider metadata and is not modelled. -/

/-- A chat-history message (`{"role": ..., "content": ...}`). -/
structure Msg where
  role : String
  content : String
deriving DecidableEq

/-- One structured tool-call request from the provider
(`tc.id`, `tc.function.name`, `tc.function.arguments`). -/
structure ToolCallReq where
  id : String
  name : String
  arguments : String
deriving DecidableEq

/-- One completion reply: `message.content` (possibly `None`) and
`message.tool_calls` (`None` is modelled as `[]`, matching its falsiness). -/
structure LLMReply where
  content : Option String
  tool_calls : List ToolCallReq
deriving DecidableEq

/-- The `enhanced_context` dictionary: the caller-supplied part is opaque
(`dump`), while the keys the controller itself reads and writes —
`needs_action`, `reminder`, `tool_data` — are explicit. -/
structure Ctx where
  dump : String
  needs_action : Bool
  reminder : String
  tool_data : List (String × String × String)
deriving DecidableEq

/-- External collaborators of one `send_message` run. -/
structure Env where
  llm : Nat → Bool → String → Except String LLMReply
  parseArgs : String → Except String Args
  handlers : ToolHandlers
  buildSystemMessage : Ctx → String

/-- The static block appended to the system prompt on every thinking
iteration (chat_controller.py lines 153-195). -/
def criticalRulesText : String :=
  "\n\nREMINDER - CRITICAL MESSAGE SEPARATION RULES:\n\nRemember the critical format requirements from your system prompt:\n- Tool calls MUST be in their own message WITHOUT any tags\n- You CANNOT combine tool calls with <thinking> tags in the same message\n- You CANNOT combine tool calls with <response> tags in the same message\n- <thinking> and <response> tags can appear together ONLY AFTER tool results\n\nCORRECT WORKFLOW:\n1. If you need tools: Send tool calls (NO TAGS AT ALL)\n2. Wait for tool results\n3. THEN send message with <thinking> and/or <response> tags\n\nINCORRECT (DO NOT DO THIS):\n<thinking>\nLet me check the project...\n[tool calls here]\n</thinking>\n\nCORRECT (DO THIS INSTEAD):\nMessage 1: [Just tool calls, no tags]\nMessage 2 (after results): \n<thinking>\nThe tools succeeded...\n</thinking>\n<response>\nHere" ++ apos ++ "s what I found...\n</response>\n\nIMPORTANT: \n- To execute any plan or perform actions, you MUST call the appropriate tools\n- If the user has approved your plan, send tool calls WITHOUT any tags\n- You cannot complete tasks without using tools - thinking alone is not enough\n\nTOOL ERROR HANDLING:\n- If a tool returns an error, analyze it in your NEXT message using <thinking> tags\n- Common issues: wrong project name, missing parameters, etc.\n- Retry with corrected parameters if it makes sense\n- Don" ++ apos ++ "t retry the same failing call more than 2 times\n\nRemember: Tool calls first (no tags), thinking/response later!"

/-- The one-shot corrective reminder stored in the context when a reply has
neither tool calls nor a response tag (chat_controller.py line 260). -/
def stuckReminderText : String :=
  "You must either call a tool to proceed with your plan OR provide a final response to the user in <response></response> tags. Remember: plans cannot be executed without tool calls - thinking alone is not enough! You also cannot respond to the user without using <response> tags: they will not see your response."

/-- Separator with which a pending reminder is spliced into the system
prompt (chat_controller.py line 199). -/
def warnMark : String := "\n\n⚠️ IMPORTANT: "

/-- Header of the previous-tool-results section (lines 206-209). -/
def prevToolResultsHeader : String := "\n\nPrevious tool results:\n"

/-- Suffix of the direct-response (no-tools) system prompt (lines 348-364). -/
def directSuffixText : String :=
  "\n\nPlease provide a direct response to the user" ++ apos ++ "s question.\nRemember the critical format requirements:\n- You MUST wrap any thinking/analysis in <thinking></thinking> tags\n- You MUST wrap your response in <response></response> tags\n- Both tags can appear in the same message\n\nExample:\n<thinking>\nThis is a straightforward question about X. Let me provide a clear answer.\n</thinking>\n\n<response>\nYour answer here...\n</response>\n"

/-- Header of the fallback tool summary (line 412). -/
def summaryHeader : String := "\n\nHere" ++ apos ++ "s a summary of what I did:\n"

/-- Footer of the fallback tool summary (line 439). -/
def summaryFooter : String := "\n\nBased on these actions, here" ++ apos ++ "s my response:"

/-- Error message of the `UnboundLocalError` raised when `response_match`
is read (line 254) although the guard `if thinking_content:` (line 239)
never ran in any iteration, so the variable was never assigned; exact
wording as in CPython 3.11+. -/
def unboundLocalMsg : String :=
  "cannot access local variable " ++ apos ++ "response_match" ++ apos ++
    " where it is not associated with a value"

/-- Message of the early return when no client is configured (line 121). -/
def noClientMsg : String := "OpenAI client not initialized. Please set API key first."

/-- The state threaded through the thinking loop: the mutated context, the
accumulated `tool_results`, whether the Python local `response_match` has
been assigned yet (`none` = unbound; `some m` = last assigned value), and
how many completion calls were issued so far. -/
structure LoopSt where
  ctx : Ctx
  tool_results : List (String × ToolResult)
  rmBound : Option (Option String)
  calls : Nat
deriving DecidableEq

/-- Builds `thinking_system_prompt` for one iteration (lines 153-209):
base system message plus the critical-rules block, plus the pending
reminder (which is then popped from the context), plus the summaries of
previously successful tool results. -/
def thinkingPrompt (env : Env) (ctx : Ctx) (tool_results : List (String × ToolResult)) :
    String × Ctx :=
  let p0 := env.buildSystemMessage ctx ++ criticalRulesText
  let pc : String × Ctx :=
    if ctx.needs_action then
      (p0 ++ warnMark ++ ctx.reminder ++ "\n", { ctx with needs_action := false, reminder := "" })
    else (p0, ctx)
  let p1 :=
    if tool_results = [] then pc.1
    else pc.1 ++ prevToolResultsHeader ++
      String.join (tool_results.map fun tr =>
        if tr.2.success then "- " ++ tr.2.summary.getD "" ++ "\n" else "")
  (p1, pc.2)

/-- Executes the tool calls of one reply in order (lines 296-334):
for each call, `json.loads` the arguments (a parse failure raises and
aborts the run), run `execute_tool_call`, append to `tool_results`, and on
success append to `context["tool_data"]`.  Direct dictionary accesses
`result["data"]` (line 309), `result["summary"]` (line 318) and
`result["error"]` (line 333) raise `KeyError` when the key is absent. -/
def runTools (env : Env) : List ToolCallReq → Ctx → List (String × ToolResult) →
    Except (String × Ctx × List (String × ToolResult)) (Ctx × List (String × ToolResult))
  | [], cx, trs => Except.ok (cx, trs)
  | tc :: rest, cx, trs =>
    match env.parseArgs tc.arguments with
    | Except.error e => Except.error (e, cx, trs)
    | Except.ok args =>
      let r := execute_tool_call env.handlers tc.name args
      let trs1 := trs ++ [(tc.name, r)]
      if r.success then
        match r.data with
        | none => Except.error (apos ++ "data" ++ apos, cx, trs1)
        | some d =>
          match r.summary with
          | none => Except.error (apos ++ "summary" ++ apos, cx, trs1)
          | some s =>
            runTools env rest { cx with tool_data := cx.tool_data ++ [(tc.name, d, s)] } trs1
      else
        match r.error with
        | none => Except.error (apos ++ "error" ++ apos, cx, trs1)
        | some _ => runTools env rest cx trs1

/-- Outcome of one thinking iteration. -/
inductive IterOut
  | found (r : String)
  | breakNoResp
  | next
  | err (e : String)
deriving DecidableEq

/-- Lines 251-339: after the content check.  No tool calls with
`response_match` unbound raises `UnboundLocalError`; no tool calls with a
`none` match injects the corrective reminder and continues; no tool calls
with a previously stored match breaks out of the loop (line 267; dead in
practice because a found match exits at line 249); otherwise the tool
calls are executed. -/
def afterContent (env : Env) (reply : LLMReply) (st : LoopSt) : LoopSt × IterOut :=
  match reply.tool_calls with
  | [] =>
    match st.rmBound with
    | none => (st, IterOut.err unboundLocalMsg)
    | some none =>
      ({ st with ctx := { st.ctx with needs_action := true, reminder := stuckReminderText } },
        IterOut.next)
    | some (some _) => (st, IterOut.breakNoResp)
  | _ :: _ =>
    match runTools env reply.tool_calls st.ctx st.tool_results with
    | Except.error (e, cx, trs) => ({ st with ctx := cx, tool_results := trs }, IterOut.err e)
    | Except.ok (cx, trs) => ({ st with ctx := cx, tool_results := trs }, IterOut.next)

/-- One iteration of the thinking loop (lines 149-339): build the prompt,
issue the completion call (tool-calling enabled), and if the reply content
is truthy search it for a `<response>` tag — a hit sets `final_response`
and breaks (lines 245-249); otherwise fall through to `afterContent`. -/
def thinkingStep (env : Env) (st : LoopSt) : LoopSt × IterOut :=
  let pc := thinkingPrompt env st.ctx st.tool_results
  match env.llm st.calls true pc.1 with
  | Except.error e => ({ st with ctx := pc.2, calls := st.calls + 1 }, IterOut.err e)
  | Except.ok reply =>
    let st1 := { st with ctx := pc.2, calls := st.calls + 1 }
    match reply.content with
    | some c =>
      if c = "" then afterContent env reply st1
      else
        let m := extract_response c
        let st2 := { st1 with rmBound := some m }
        match m with
        | some r => (st2, IterOut.found r)
        | none => afterContent env reply st2
    | none => afterContent env reply st1

/-- Result of the whole loop. -/
inductive LoopOut
  | found (r : String)
  | noResp
  | raised (e : String)
deriving DecidableEq

/-- The loop `while iteration < max_iterations and final_response is None` with the
remaining iteration budget as fuel. -/
def loopGo (env : Env) : Nat → LoopSt → LoopSt × LoopOut
  | 0, st => (st, LoopOut.noResp)
  | Nat.succ fuel, st =>
    match thinkingStep env st with
    | (st1, IterOut.found r) => (st1, LoopOut.found r)
    | (st1, IterOut.breakNoResp) => (st1, LoopOut.noResp)
    | (st1, IterOut.err e) => (st1, LoopOut.raised e)
    | (st1, IterOut.next) => loopGo env fuel st1

/-- The iteration cap `max_iterations = 30` (line 147). -/
def max_iterations : Nat := 30

/-- Loop state at entry: `enhanced_context = context.copy()`,
`tool_results = []`, `response_match` unbound, no calls issued. -/
def initSt (ctx : Ctx) : LoopSt :=
  { ctx := ctx, tool_results := [], rmBound := none, calls := 0 }

/-- One grouped line of the fallback tool summary (lines 420-436). -/
def toolSummaryLine (tool_name summary : String) : String :=
  if tool_name = "create_project" then "✅ Created project: " ++ summary
  else if tool_name = "add_block" then "✅ Added block: " ++ summary
  else if tool_name = "fetch_asset_volatility" then "✅ Fetched volatility data: " ++ summary
  else if tool_name = "estimate_correlation_matrix" then "✅ Estimated correlations: " ++ summary
  else if tool_name = "update_block_parameters" then "✅ Updated parameters: " ++ summary
  else if tool_name = "load_project" then "📋 Loaded: " ++ summary
  else if tool_name = "run_sensitivity_test" then "🚀 Ran test: " ++ summary
  else "- " ++ summary

/-- The fallback system message (lines 407-445): the base system message
plus, when tools ran, a summary of the successful tool results. -/
def fallbackPrompt (env : Env) (ctx : Ctx) (tool_results : List (String × ToolResult)) : String :=
  let system_message := env.buildSystemMessage ctx
  if tool_results = [] then system_message
  else
    system_message ++ summaryHeader ++
      String.intercalate "\n" (tool_results.filterMap fun tr =>
        if tr.2.success then some (toolSummaryLine tr.1 (tr.2.summary.getD "")) else none) ++
      summaryFooter

/-- How a fallback reply becomes `assistant_response` (lines 455-471):
tag content if present, else the raw content as-is, else the empty
string when the content is falsy. -/
def fallbackRespOf (reply : LLMReply) : String :=
  match reply.content with
  | some c => if c = "" then "" else (extract_response c).getD c
  | none => ""

/-- The fallback completion call (lines 448-471), issued without
tool-calling enabled. -/
def fallbackCall (env : Env) (st : LoopSt) : LoopSt × Except String String :=
  match env.llm st.calls false (fallbackPrompt env st.ctx st.tool_results) with
  | Except.error e => ({ st with calls := st.calls + 1 }, Except.error e)
  | Except.ok reply => ({ st with calls := st.calls + 1 }, Except.ok (fallbackRespOf reply))

/-- How a direct-mode reply becomes `final_response` (lines 380-393):
`None` when the content is falsy, else tag content or the whole content. -/
def directRespOf (reply : LLMReply) : Option String :=
  match reply.content with
  | some c => if c = "" then none else some ((extract_response c).getD c)
  | none => none

/-- The dictionary returned by `send_message` (keys that are absent on a
given path are `none`). -/
structure SendResult where
  success : Bool
  message : Option String
  response : Option String
  tools_used : Option Nat
deriving DecidableEq

/-- Observable outcome of one `send_message` call: the returned
dictionary, the chat history afterwards, the number of completion calls
issued, and the tools executed (name and result, in execution order). -/
structure SendOut where
  result : SendResult
  history : List Msg
  calls : Nat
  executed : List (String × ToolResult)
deriving DecidableEq

/-- The success epilogue (lines 473-520): append the user message and the
assistant response to the chat history and return the success dictionary
(`tools_used = len(tool_results)`; the `tool_details` list and usage
totals are derived data and not modelled). -/
def finishOk (history : List Msg) (message r : String) (st : LoopSt) : SendOut :=
  { result :=
      { success := true, message := none, response := some r,
        tools_used := some st.tool_results.length },
    history := history ++
      [{ role := "user", content := message }, { role := "assistant", content := r }],
    calls := st.calls, executed := st.tool_results }

/-- The `except Exception` handler (lines 522-532): a failure dictionary;
the chat history is untouched because the appends at lines 498-499 are
only reached when nothing raised. -/
def abortErr (history : List Msg) (e : String) (st : LoopSt) : SendOut :=
  { result :=
      { success := false, message := some ("Error sending message: " ++ e),
        response := none, tools_used := none },
    history := history, calls := st.calls, executed := st.tool_results }

/-- The fallback completion call followed by the success epilogue or the
exception handler (lines 404-471 then 473-532): taken whenever the
truthiness test on `final_response` fails. -/
def fallbackAndFinish (env : Env) (history : List Msg) (message : String)
    (st : LoopSt) : SendOut :=
  match fallbackCall env st with
  | (st1, Except.error e) => abortErr history e st1
  | (st1, Except.ok ar) => finishOk history message ar st1

/-- The response phase (lines 398-471): `if final_response:` is Python
truthiness — false both when `final_response` is still `None` and when it
is the empty string (e.g. a `<response>` pair whose body strips to
nothing) — so only a non-empty response skips the fallback call. -/
def responsePhase (env : Env) (history : List Msg) (message : String)
    (final_response : Option String) (st : LoopSt) : SendOut :=
  match final_response with
  | some r =>
    if r = "" then fallbackAndFinish env history message st
    else finishOk history message r st
  | none => fallbackAndFinish env history message st

/-- Models `ChatController.send_message` (lines 106-532).  `clientInit` models
`self.client is not None`; `history` is the chat history at entry (its
last ten entries feed the completion calls, absorbed into the call index
of `Env.llm`); `ctx0` is the copied caller context. -/
def send_message (env : Env) (clientInit : Bool) (history : List Msg) (message : String)
    (ctx0 : Ctx) (use_tools : Bool) : SendOut :=
  if clientInit = false then
    { result :=
        { success := false, message := some noClientMsg,
          response := none, tools_used := none },
      history := history, calls := 0, executed := [] }
  else if use_tools then
    match loopGo env max_iterations (initSt ctx0) with
    | (st, LoopOut.found r) => responsePhase env history message (some r) st
    | (st, LoopOut.raised e) => abortErr history e st
    | (st, LoopOut.noResp) => responsePhase env history message none st
  else
    match env.llm 0 false (env.buildSystemMessage ctx0 ++ directSuffixText) with
    | Except.error e => abortErr history e { initSt ctx0 with calls := 1 }
    | Except.ok reply =>
      responsePhase env history message (directRespOf reply) { initSt ctx0 with calls := 1 }

/- ### Streaming delivery adapter (`send_message_stream`, api.py lines 239-321) -/

/-- One newline-delimited event record of the streaming endpoint. -/
inductive StreamEvent
  | start
  | tool_call (tool_name summary : String)
  | response (content : String)
  | error (message : String)
  | done
deriving DecidableEq

/-- The parameter names of `ChatController.send_message` besides `self`
(chat_controller.py line 106). -/
def send_message_params : List String := ["message", "context", "use_tools"]

/-- The keyword arguments that the streaming adapter passes to
`send_message` beyond the three positional ones (api.py line 279). -/
def streamExtraKwargs : List String := ["tool_callback"]

/-- The worker-thread body `run_chat` (api.py lines 274-280).  Python
rejects a call whose keyword argument names no parameter with a
`TypeError`; the exception kills the daemon thread, so `result_container`
is never filled (`none`).  Otherwise the `send_message` result is stored. -/
def run_chat (env : Env) (clientInit : Bool) (history : List Msg) (message : String)
    (ctx0 : Ctx) (use_tools : Bool) : Option SendOut :=
  if streamExtraKwargs.all (fun k => send_message_params.contains k) then
    some (send_message env clientInit history message ctx0 use_tools)
  else none

/-- The event sequence yielded by `send_message_stream.generate` (api.py
lines 263-311): a start event; then the tool_call events drained from the
queue — whose only producer is the `tool_cb` closure handed over as the
`tool_callback` keyword argument, which the source `send_message` can
never invoke because it has no such parameter, so the queue stays empty;
then one response or error event according to `result.get('success')`
(an unset container reads as `{}`, so the defaults `False` and
`'Unknown error'` apply); then the `done` sentinel. -/
def generateStream (env : Env) (clientInit : Bool) (history : List Msg) (message : String)
    (ctx0 : Ctx) (use_tools : Bool) : List StreamEvent :=
  let rc := run_chat env clientInit history message ctx0 use_tools
  let queueEvents : List StreamEvent := []
  let finalEvent :=
    match rc with
    | some out =>
      if out.result.success then StreamEvent.response (out.result.response.getD "")
      else StreamEvent.error (out.result.message.getD "Unknown error")
    | none => StreamEvent.error "Unknown error"
  [StreamEvent.start] ++ queueEvents ++ [finalEvent, StreamEvent.done]

/- ### PendingResultRegistry

Modelled from the spec: no `PendingResultRegistry` implementation exists
under `src/` (the repository ships only the spec text for it), so the
registry is built from §4.4 of the specification. -/

/-- Modelled from the spec: a `PendingResult` record —
`{analysis_id, brief_message, response | nil, is_pending, created_at}`
plus the consumed mark set by `take`; `analysis_id` is the key of the
association list and `created_at` carries no behaviour. -/
structure PendingEntry where
  brief_message : String
  response : Option String
  is_pending : Bool
  consumed : Bool
deriving DecidableEq

/-- Keyed storage of pending results, newest binding first. -/
abbrev Registry := List (String × PendingEntry)

namespace PendingResultRegistry

/-- First entry stored under the id, if any. -/
def rlookup : Registry → String → Option PendingEntry
  | [], _ => none
  | (k, e) :: t, id => if k = id then some e else rlookup t id

/-- Replaces the first entry stored under the id. -/
def rupdate : Registry → String → PendingEntry → Registry
  | [], _, _ => []
  | (k, e0) :: t, id, e => if k = id then (k, e) :: t else (k, e0) :: rupdate t id e

/-- Modelled from the spec: `register(analysis_id, brief_message) -> void`
creates the entry in the pending state. -/
def register (r : Registry) (id brief : String) : Registry :=
  (id,
    { brief_message := brief, response := none,
      is_pending := true, consumed := false }) :: r

/-- Modelled from the spec: `complete(analysis_id, response) -> void`
moves pending to complete; an idempotent no-op when the id is unknown or
the entry is already completed. -/
def complete (r : Registry) (id resp : String) : Registry :=
  match rlookup r id with
  | none => r
  | some e =>
    if e.is_pending then
      rupdate r id { e with response := some resp, is_pending := false }
    else r

/-- Modelled from the spec: `take(analysis_id) -> PendingResult|None`
returns the entry and marks it consumed; `None` when the id is unknown or
the entry was already consumed. -/
def take (r : Registry) (id : String) : Option PendingEntry × Registry :=
  match rlookup r id with
  | none => (none, r)
  | some e =>
    if e.consumed then (none, r)
    else (some e, rupdate r id { e with consumed := true })

/-- Modelled from the spec: `list_pending() -> [PendingResult]` is
non-destructive. -/
def list_pending (r : Registry) : List (String × PendingEntry) :=
  r.filter fun kv => kv.2.is_pending

/-- An operation applied to the shared registry by some worker or poller. -/
inductive RegOp
  | register (id brief : String)
  | complete (id resp : String)
  | take (id : String)
deriving DecidableEq

/-- Effect of one operation on the registry. -/
def applyOp (r : Registry) : RegOp → Registry
  | RegOp.register id b => register r id b
  | RegOp.complete id resp => complete r id resp
  | RegOp.take id => (take r id).2

/-- Effect of a sequence of operations, oldest first. -/
def applyOps (r : Registry) : List RegOp → Registry
  | [] => r
  | op :: rest => applyOps (applyOp r op) rest

end PendingResultRegistry

/- ### Concrete environments used by the witnesses -/

/-- Handler stub that always succeeds with a complete result dictionary. -/
def okHandler : Args → Except String ToolResult :=
  fun _ =>
    Except.ok { success := true, data := some "", error := none, summary := some "" }

/-- All fourteen handlers succeed. -/
def trivialHandlers : ToolHandlers :=
  { load_project := okHandler, load_test_run := okHandler, search_test_runs := okHandler,
    list_projects := okHandler, update_block_position := okHandler,
    update_block_parameters := okHandler, add_block := okHandler, remove_block := okHandler,
    create_project := okHandler, delete_test_run := okHandler, delete_project := okHandler,
    fetch_asset_volatility := okHandler, estimate_correlation_matrix := okHandler,
    run_sensitivity_test := okHandler }

/-- Like `trivialHandlers`, but `load_project` raises. -/
def raisingHandlers : ToolHandlers :=
  { trivialHandlers with load_project := fun _ => Except.error "boom" }

/-- An empty caller context. -/
def ctxEmpty : Ctx := { dump := "", needs_action := false, reminder := "", tool_data := [] }

/-- Provider stub whose replies carry tagless text and no tool calls. -/
def envPlain : Env :=
  { llm := fun _ _ _ => Except.ok { content := some "plain thoughts", tool_calls := [] },
    parseArgs := fun _ => Except.ok [], handlers := trivialHandlers,
    buildSystemMessage := fun c => c.dump }

/-- Provider stub that raises on every completion call. -/
def envFail : Env :=
  { llm := fun _ _ _ => Except.error "boom",
    parseArgs := fun _ => Except.ok [], handlers := trivialHandlers,
    buildSystemMessage := fun c => c.dump }

/-- Provider stub that answers every call with a tagged final response. -/
def envRespond : Env :=
  { llm := fun _ _ _ =>
      Except.ok { content := some "<response>hello</response>", tool_calls := [] },
    parseArgs := fun _ => Except.ok [], handlers := trivialHandlers,
    buildSystemMessage := fun c => c.dump }

/-- Provider stub whose replies have neither content nor tool calls. -/
def envContentless : Env :=
  { llm := fun _ _ _ => Except.ok { content := none, tool_calls := [] },
    parseArgs := fun _ => Except.ok [], handlers := trivialHandlers,
    buildSystemMessage := fun c => c.dump }

/-- Provider stub: tagless replies for the thirty loop calls, then an
error on the thirty-first (fallback) call. -/
def envLateFail : Env :=
  { llm := fun n _ _ =>
      if n < 30 then Except.ok { content := some "plain thoughts", tool_calls := [] }
      else Except.error "boom",
    parseArgs := fun _ => Except.ok [], handlers := trivialHandlers,
    buildSystemMessage := fun c => c.dump }

/-- The loop state after thirty consecutive stuck iterations on an
initially empty context: the thirtieth iteration leaves the reminder
pending, `response_match` was last assigned `None`, thirty calls made. -/
def stAfterLoop : LoopSt :=
  { ctx := { dump := "", needs_action := true, reminder := stuckReminderText, tool_data := [] },
    tool_results := [], rmBound := some none, calls := 30 }

/-- The loop state after a single stuck iteration. -/
def stStuck : LoopSt :=
  { ctx := { dump := "", needs_action := true, reminder := stuckReminderText, tool_data := [] },
    tool_results := [], rmBound := some none, calls := 1 }

/-- Provider stub whose replies carry a tagged response that strips to the
empty string, exercising the falsy branch of `if final_response:`. -/
def envEmptyTag : Env :=
  { llm := fun _ _ _ =>
      Except.ok { content := some "<response>   </response>", tool_calls := [] },
    parseArgs := fun _ => Except.ok [], handlers := trivialHandlers,
    buildSystemMessage := fun c => c.dump }

/-- The loop state after the first iteration of `envRespond`: one call,
`response_match` assigned the match "hello". -/
def stRespond : LoopSt :=
  { ctx := { dump := "", needs_action := false, reminder := "", tool_data := [] },
    tool_results := [], rmBound := some (some "hello"), calls := 1 }

/-- The loop state after the first iteration of `envEmptyTag`: one call,
`response_match` assigned the empty match. -/
def stEmptyTag : LoopSt :=
  { ctx := { dump := "", needs_action := false, reminder := "", tool_data := [] },
    tool_results := [], rmBound := some (some ""), calls := 1 }

theorem dataAppend (a b : String) : (a ++ b).data = a.data ++ b.data := by
  cases a; cases b; rfl

theorem startsWith_iff (l pat : List Char) :
    listStartsWith l pat = true ↔ l.take pat.length = pat := by
  induction pat generalizing l with
  | nil => simp [listStartsWith]
  | cons p ps ih =>
    cases l with
    | nil => simp [listStartsWith]
    | cons c t =>
      simp [listStartsWith, Bool.and_eq_true, beq_iff_eq, ih, List.take, and_comm]

theorem overlap_elim {pat : List Char} (hov : selfOverlapFree pat = true) :
    ∀ k, 0 < k → k < pat.length → pat.drop k ≠ pat.take (pat.length - k) := by
  intro k hk0 hklen heq
  have h := List.all_eq_true.mp hov k (List.mem_range.mpr hklen)
  simp only [Bool.or_eq_true, beq_iff_eq, Bool.not_eq_true', beq_eq_false_iff_ne] at h
  rcases h with h1 | h2
  · omega
  · exact h2 heq

theorem cross_block {pat : List Char} (s b : List Char)
    (hov : selfOverlapFree pat = true) (hs0 : s ≠ [])
    (hslen : s.length < pat.length) :
    listStartsWith (s ++ (pat ++ b)) pat = false := by
  by_contra hne
  have htrue : listStartsWith (s ++ (pat ++ b)) pat = true := by
    cases h : listStartsWith (s ++ (pat ++ b)) pat
    · exact absurd h hne
    · rfl
  have htake := (startsWith_iff _ _).mp htrue
  rw [List.take_append_eq_append_take, List.take_of_length_le (Nat.le_of_lt hslen),
    List.take_append_eq_append_take,
    Nat.sub_eq_zero_of_le (Nat.sub_le pat.length s.length), List.take_zero,
    List.append_nil] at htake
  have hdrop : pat.drop s.length = pat.take (pat.length - s.length) := by
    conv_lhs => rw [← htake]
    exact List.drop_left s (pat.take (pat.length - s.length))
  exact overlap_elim hov s.length (List.length_pos.mpr hs0) hslen hdrop

theorem startsWith_long {pat : List Char} (s b : List Char)
    (h : pat.length ≤ s.length) :
    listStartsWith (s ++ b) pat = listStartsWith s pat := by
  have htake : (s ++ b).take pat.length = s.take pat.length := by
    rw [List.take_append_eq_append_take, Nat.sub_eq_zero_of_le h, List.take_zero,
      List.append_nil]
  cases hpb : listStartsWith (s ++ b) pat <;> cases hp : listStartsWith s pat <;> try rfl
  · exact absurd ((startsWith_iff _ _).mpr (htake ▸ (startsWith_iff _ _).mp hp))
      (by simp [hpb])
  · exact absurd ((startsWith_iff _ _).mpr (htake.symm ▸ (startsWith_iff _ _).mp hpb))
      (by simp [hp])

theorem findSubAux_boundary {pat : List Char} (b : List Char)
    (hov : selfOverlapFree pat = true) (hne : pat ≠ []) :
    ∀ (a : List Char) (i : Nat), findSubAux pat a i = none →
      findSubAux pat (a ++ (pat ++ b)) i = some (i + a.length) := by
  intro a
  induction a with
  | nil =>
    intro i _
    have hsw : listStartsWith (pat ++ b) pat = true :=
      (startsWith_iff _ _).mpr (List.take_left pat b)
    cases hp : (pat ++ b) with
    | nil =>
      exact absurd (List.append_eq_nil.mp hp).1 hne
    | cons c t =>
      simp only [List.nil_append, hp] at hsw ⊢
      simp [findSubAux, hsw]
  | cons c t ih =>
    intro i h
    have hsplit : listStartsWith (c :: t) pat = false ∧ findSubAux pat t (i + 1) = none := by
      by_cases hsw : listStartsWith (c :: t) pat = true
      · simp [findSubAux, hsw] at h
      · rw [Bool.not_eq_true] at hsw
        refine ⟨hsw, ?_⟩
        simpa [findSubAux, hsw] using h
    have hswfull : listStartsWith (c :: t ++ (pat ++ b)) pat = false := by
      by_cases hlen : pat.length ≤ (c :: t).length
      · rw [startsWith_long (c :: t) (pat ++ b) hlen]
        exact hsplit.1
      · exact cross_block (c :: t) b hov (by simp) (Nat.lt_of_not_le hlen)
    have hrec := ih (i + 1) hsplit.2
    simp only [List.cons_append]
    simp only [List.cons_append] at hswfull
    simp only [findSubAux, hswfull, if_false, Bool.false_eq_true]
    rw [hrec]
    congr 1
    simp [List.length_cons]
    omega

theorem findSub_boundary {pat : List Char} (a b : List Char)
    (hov : selfOverlapFree pat = true) (hne : pat ≠ [])
    (h : findSub a pat = none) :
    findSub (a ++ (pat ++ b)) pat = some a.length := by
  have := findSubAux_boundary b hov hne a 0 h
  simpa [findSub] using this

theorem findSubAux_acc_isSome (pat : List Char) :
    ∀ (l : List Char) (i j : Nat),
      (findSubAux pat l i).isSome = (findSubAux pat l j).isSome := by
  intro l
  induction l with
  | nil => intro i j; by_cases h : listStartsWith [] pat = true <;> simp [findSubAux, h]
  | cons c t ih =>
    intro i j
    by_cases h : listStartsWith (c :: t) pat = true
    · simp [findSubAux, h]
    · rw [Bool.not_eq_true] at h
      simp only [findSubAux, h, if_false, Bool.false_eq_true]
      exact ih (i + 1) (j + 1)

theorem findSub_drop_none {pat : List Char} :
    ∀ (l : List Char), findSub l pat = none → ∀ n, findSub (l.drop n) pat = none := by
  intro l
  induction l with
  | nil => intro h n; simpa using h
  | cons c t ih =>
    intro h n
    cases n with
    | zero => simpa using h
    | succ m =>
      have hsplit : findSubAux pat t 1 = none := by
        by_cases hsw : listStartsWith (c :: t) pat = true
        · simp [findSub, findSubAux, hsw] at h
        · rw [Bool.not_eq_true] at hsw
          simpa [findSub, findSubAux, hsw] using h
      have ht : findSub t pat = none := by
        have := findSubAux_acc_isSome pat t 1 0
        rw [hsplit] at this
        unfold findSub
        cases hx : findSubAux pat t 0
        · rfl
        · rw [hx] at this; simp at this
      simpa using ih ht m

theorem findSubAux_isSome_append (pat : List Char) (b : List Char) :
    ∀ (a : List Char) (i : Nat), (findSubAux pat (a ++ (pat ++ b)) i).isSome = true := by
  intro a
  induction a with
  | nil =>
    intro i
    have hsw : listStartsWith (pat ++ b) pat = true :=
      (startsWith_iff _ _).mpr (List.take_left pat b)
    cases hp : (pat ++ b) with
    | nil =>
      have hpe : pat = [] := (List.append_eq_nil.mp hp).1
      subst hpe
      simp [findSubAux, listStartsWith]
    | cons c t =>
      rw [hp] at hsw
      simp [findSubAux, hsw]
  | cons c t ih =>
    intro i
    by_cases hsw : listStartsWith (c :: t ++ (pat ++ b)) pat = true
    · simp only [List.cons_append] at hsw ⊢
      simp [findSubAux, hsw]
    · rw [Bool.not_eq_true] at hsw
      simp only [List.cons_append] at hsw ⊢
      simp only [findSubAux, hsw, if_false, Bool.false_eq_true]
      rw [findSubAux_acc_isSome pat (t ++ (pat ++ b)) (i + 1) i]
      exact ih i

/-- Containment of the middle part of a three-way concatenation. -/
theorem strContains_middle (a x b : String) :
    strContains (a ++ (x ++ b)) x = true := by
  unfold strContains findSub
  rw [dataAppend, dataAppend]
  exact findSubAux_isSome_append x.data b.data a.data 0

theorem contains_false_none (s pat : String) (h : strContains s pat = false) :
    findSub s.data pat.data = none := by
  unfold strContains at h
  cases hfs : findSub s.data pat.data with
  | none => rfl
  | some v => rw [hfs] at h; simp at h

/-- The first `<response>` of `pre ++ "<response>" ++ x ++ "</response>" ++ post`
sits right after `pre` and the first `</response>` after it right after `x`,
so extraction returns exactly `x`, stripped. -/
theorem extract_decomp (pre x post : String)
    (hpre : strContains pre "<response>" = false)
    (hx : strContains x "</response>" = false) :
    extract_response (pre ++ "<response>" ++ x ++ "</response>" ++ post) = some (pyStrip x) := by
  have hdata : (pre ++ "<response>" ++ x ++ "</response>" ++ post).data
      = pre.data ++ (respOpen ++ (x.data ++ (respClose ++ post.data))) := by
    simp only [dataAppend, List.append_assoc, respOpen, respClose]
  have hpre' : findSub pre.data respOpen = none := contains_false_none pre _ hpre
  have hx' : findSub x.data respClose = none := contains_false_none x _ hx
  have hopen : findSub (pre ++ "<response>" ++ x ++ "</response>" ++ post).data respOpen
      = some pre.data.length := by
    rw [hdata]
    exact findSub_boundary _ _ (by decide) (by decide) hpre'
  have hrest : (pre ++ "<response>" ++ x ++ "</response>" ++ post).data.drop
      (pre.data.length + respOpen.length) = x.data ++ (respClose ++ post.data) := by
    rw [hdata, ← List.append_assoc]
    exact List.drop_left' (by simp)
  have hclose : findSub (x.data ++ (respClose ++ post.data)) respClose
      = some x.data.length := findSub_boundary _ _ (by decide) (by decide) hx'
  unfold extract_response extractAux
  simp only [hopen, hrest, hclose, List.take_left]
  rfl

theorem extract_none_of_no_open (text : String)
    (h : strContains text "<response>" = false) :
    extract_response text = none := by
  have h' : findSub text.data respOpen = none := contains_false_none text _ h
  unfold extract_response extractAux
  simp [h']

theorem extract_none_of_no_close (text : String)
    (h : strContains text "</response>" = false) :
    extract_response text = none := by
  have h' : findSub text.data respClose = none := contains_false_none text _ h
  unfold extract_response extractAux
  cases hfo : findSub text.data respOpen with
  | none => simp
  | some i =>
    have hd := findSub_drop_none text.data h' (i + respOpen.length)
    simp [hd]

/- ### Call accounting for the thinking loop -/

theorem afterContent_calls (env : Env) (reply : LLMReply) (st : LoopSt) :
    (afterContent env reply st).1.calls = st.calls := by
  unfold afterContent
  cases hc : reply.tool_calls with
  | nil =>
    cases st.rmBound with
    | none => rfl
    | some m => cases m <;> rfl
  | cons a l =>
    cases hrt : runTools env (a :: l) st.ctx st.tool_results with
    | error p => obtain ⟨e, cx, trs⟩ := p; rfl
    | ok p => obtain ⟨cx, trs⟩ := p; rfl

theorem thinkingStep_calls (env : Env) (st : LoopSt) :
    (thinkingStep env st).1.calls = st.calls + 1 := by
  simp only [thinkingStep]
  split
  · rfl
  · split
    · split
      · rw [afterContent_calls]
      · split
        · rfl
        · rw [afterContent_calls]
    · rw [afterContent_calls]

theorem loopGo_calls (env : Env) : ∀ (fuel : Nat) (st : LoopSt),
    (loopGo env fuel st).1.calls ≤ st.calls + fuel := by
  intro fuel
  induction fuel with
  | zero => intro st; exact Nat.le_refl _
  | succ f ih =>
    intro st
    have hstep : (thinkingStep env st).1.calls = st.calls + 1 := thinkingStep_calls env st
    unfold loopGo
    cases hts : thinkingStep env st with
    | mk st1 out =>
      have hstep1 : st1.calls = st.calls + 1 := by rw [hts] at hstep; exact hstep
      cases out with
      | found r => show st1.calls ≤ st.calls + (f + 1); omega
      | breakNoResp => show st1.calls ≤ st.calls + (f + 1); omega
      | err e => show st1.calls ≤ st.calls + (f + 1); omega
      | next =>
        have hrec := ih st1
        show (loopGo env f st1).1.calls ≤ st.calls + (f + 1)
        omega

theorem fallbackCall_calls (env : Env) (st : LoopSt) :
    (fallbackCall env st).1.calls = st.calls + 1 := by
  unfold fallbackCall
  cases h : env.llm st.calls false (fallbackPrompt env st.ctx st.tool_results) with
  | error e => rfl
  | ok reply => rfl

/- ### Claim theorems -/

/-- Claim C10: when no API key has been configured (the OpenAI client is
`None`), `send_message` immediately returns a failure dictionary with the
message "OpenAI client not initialized. Please set API key first.",
issues no completion request, executes no tool, and leaves the chat
history unchanged. -/
theorem send_message_requires_client (env : Env) (hist : List Msg) (msg : String)
    (ctx : Ctx) (ut : Bool) :
    send_message env false hist msg ctx ut =
      { result :=
          { success := false, message := some noClientMsg,
            response := none, tools_used := none },
        history := hist, calls := 0, executed := [] } := rfl

theorem dispatchTool_unknown (h : ToolHandlers) (name : String) (args : Args)
    (hn : name ∉ knownToolNames) :
    dispatchTool h name args =
      Except.ok
        { success := false, data := none, summary := none,
          error := some ("Unknown tool: " ++ name) } := by
  simp only [knownToolNames, List.mem_cons, List.not_mem_nil, or_false, not_or] at hn
  obtain ⟨h1, h2, h3, h4, h5, h6, h7, h8, h9, h10, h11, h12, h13, h14⟩ := hn
  simp only [dispatchTool, h1, h2, h3, h4, h5, h6, h7, h8, h9, h10, h11, h12, h13, h14,
    if_false]

/-- Claim C4: `execute_tool_call` is a total function into result
dictionaries (in this embedding it cannot raise by construction): a tool
name outside the fixed handler set yields `success=false` with an
"Unknown tool" error, and a raising handler is caught at this boundary
and converted to `success=false` with a descriptive error. -/
theorem execute_tool_call_total_error_handling :
    (∀ (h : ToolHandlers) (name : String) (args : Args), name ∉ knownToolNames →
      execute_tool_call h name args =
        { success := false, data := none, summary := none,
          error := some ("Unknown tool: " ++ name) }) ∧
    (∀ (h : ToolHandlers) (name : String) (args : Args) (e : String),
      dispatchTool h name args = Except.error e →
      execute_tool_call h name args =
        { success := false, data := none, summary := none,
          error := some ("Error executing tool: " ++ e) }) := by
  constructor
  · intro h name args hn
    unfold execute_tool_call
    rw [dispatchTool_unknown h name args hn]
  · intro h name args e he
    unfold execute_tool_call
    rw [he]

/-- Witness for C4 at an unknown name and at a raising handler. -/
theorem execute_tool_call_total_error_handling_witness :
    execute_tool_call trivialHandlers "frobnicate" [] =
      { success := false, data := none, summary := none,
        error := some ("Unknown tool: " ++ "frobnicate") } ∧
    execute_tool_call raisingHandlers "load_project" [] =
      { success := false, data := none, summary := none,
        error := some ("Error executing tool: " ++ "boom") } :=
  ⟨execute_tool_call_total_error_handling.1 trivialHandlers "frobnicate" [] (by decide),
   execute_tool_call_total_error_handling.2 raisingHandlers "load_project" [] "boom" rfl⟩

/-- Claim C6: on text decomposing as `pre ++ "<response>" ++ x ++
"</response>" ++ post` — with `pre` holding no earlier open tag and `x`
holding no earlier close tag, so that the tag pair around `x` is the one
the lazy regex matches — extraction returns exactly `x` with surrounding
whitespace trimmed; on text with no `<response>` tag at all it returns
`none` (and, being a total function, raises no exception). -/
theorem extract_response_round_trip :
    (∀ pre x post : String, strContains pre "<response>" = false →
      strContains x "</response>" = false →
      extract_response (pre ++ "<response>" ++ x ++ "</response>" ++ post) =
        some (pyStrip x)) ∧
    (∀ text : String, strContains text "<response>" = false →
      extract_response text = none) :=
  ⟨extract_decomp, extract_none_of_no_open⟩

/-- Witness for C6 on concrete tagged and untagged inputs. -/
theorem extract_response_round_trip_witness :
    extract_response ("xx" ++ "<response>" ++ " hello " ++ "</response>" ++ "yy") =
      some (pyStrip " hello ") ∧
    extract_response "no tags" = none :=
  ⟨extract_response_round_trip.1 "xx" " hello " "yy" (by decide) (by decide),
   extract_response_round_trip.2 "no tags" (by decide)⟩

/-- Counterexample to claim C7: a tag pair that encloses another opening
tag does not degrade to "not found" — extraction returns the enclosed
content, stray opening tag included, instead of `None`. -/
theorem extract_response_nested_counterexample :
    extract_response "<response>a<response>b</response>" = some "a<response>b" := by
  decide

/-- Claim C7 as amended: an input with an opening tag but no closing tag
anywhere (more generally, any input with no `</response>` occurrence)
degrades to `none` without raising; but a matched tag pair enclosing
another opening tag does not degrade to `none` — extraction returns the
entire enclosed content (stray opening tag included), trimmed. -/
theorem extract_response_nonmatching_amended :
    (∀ text : String, strContains text "</response>" = false →
      extract_response text = none) ∧
    (∀ pre x post : String, strContains pre "<response>" = false →
      strContains x "</response>" = false → strContains x "<response>" = true →
      extract_response (pre ++ "<response>" ++ x ++ "</response>" ++ post) =
        some (pyStrip x)) :=
  ⟨extract_none_of_no_close, fun pre x post hpre hx _ => extract_decomp pre x post hpre hx⟩

/-- Witness for the amended C7: an unterminated opening tag yields `none`;
a nested opening tag is returned inside the extracted content. -/
theorem extract_response_nonmatching_amended_witness :
    extract_response "<response>abc" = none ∧
    extract_response ("" ++ "<response>" ++ "a<response>b" ++ "</response>" ++ "") =
      some (pyStrip "a<response>b") :=
  ⟨extract_response_nonmatching_amended.1 "<response>abc" (by decide),
   extract_response_nonmatching_amended.2 "" "a<response>b" "" (by decide) (by decide)
     (by decide)⟩

/-- Claim C3 (documenting the defect): because `ChatController.send_message`
has no `tool_callback` parameter, the worker thread of the streaming
endpoint dies with a `TypeError` on every request, so the emitted event
sequence is always exactly start, error("Unknown error"), done — no
tool_call event is ever pushed and the response event is unreachable even
for runs that would succeed. -/
theorem stream_generate_always_errors (env : Env) (ci : Bool) (hist : List Msg)
    (msg : String) (ctx : Ctx) (ut : Bool) :
    generateStream env ci hist msg ctx ut =
      [StreamEvent.start, StreamEvent.error "Unknown error", StreamEvent.done] ∧
    send_message_params.contains "tool_callback" = false :=
  ⟨rfl, rfl⟩

theorem fallbackAndFinish_calls (env : Env) (hist : List Msg) (msg : String)
    (st : LoopSt) :
    (fallbackAndFinish env hist msg st).calls = st.calls + 1 := by
  unfold fallbackAndFinish
  have hc := fallbackCall_calls env st
  rcases hf : fallbackCall env st with ⟨st1, res⟩
  rw [hf] at hc
  cases res with
  | error e => exact hc
  | ok ar => exact hc

theorem fallbackAndFinish_response (env : Env) (hist : List Msg) (msg : String)
    (st : LoopSt) (reply : LLMReply)
    (hrep : env.llm st.calls false (fallbackPrompt env st.ctx st.tool_results) =
      Except.ok reply) :
    (fallbackAndFinish env hist msg st).result.response = some (fallbackRespOf reply) := by
  have hf : fallbackCall env st =
      ({ st with calls := st.calls + 1 }, Except.ok (fallbackRespOf reply)) := by
    simp [fallbackCall, hrep]
  simp [fallbackAndFinish, hf, finishOk]

/-- Claim C1: with tools enabled, a `send_message` run issues at most
`max_iterations + 1 = 31` completion requests: the thinking loop makes at
most thirty; a loop exit with a non-empty tagged response ends the run
with no further call, while a loop exit whose `final_response` fails the
truthiness test — still `None`, or a tagged body that stripped to the
empty string — issues exactly one further request, with tool-calling
disabled, whose reply (tag content, or raw content as-is when untagged)
becomes the returned response. -/
theorem send_message_llm_call_bound (env : Env) (ci : Bool) (hist : List Msg)
    (msg : String) (ctx : Ctx) :
    (send_message env ci hist msg ctx true).calls ≤ max_iterations + 1 ∧
    (∀ st r, loopGo env max_iterations (initSt ctx) = (st, LoopOut.found r) →
      st.calls ≤ max_iterations ∧
      (r ≠ "" → (send_message env true hist msg ctx true).calls = st.calls ∧
        (send_message env true hist msg ctx true).result.response = some r) ∧
      (r = "" → (send_message env true hist msg ctx true).calls = st.calls + 1)) ∧
    (∀ st, loopGo env max_iterations (initSt ctx) = (st, LoopOut.noResp) →
      st.calls ≤ max_iterations ∧
      (send_message env true hist msg ctx true).calls = st.calls + 1 ∧
      ∀ reply, env.llm st.calls false (fallbackPrompt env st.ctx st.tool_results) =
          Except.ok reply →
        (send_message env true hist msg ctx true).result.response =
          some (fallbackRespOf reply)) := by
  have hcap : ∀ st out, loopGo env max_iterations (initSt ctx) = (st, out) →
      st.calls ≤ max_iterations := by
    intro st out hl
    have h := loopGo_calls env max_iterations (initSt ctx)
    rw [hl] at h
    exact h
  refine ⟨?_, ?_, ?_⟩
  · cases ci with
    | false => simp [send_message]
    | true =>
      rcases hl : loopGo env max_iterations (initSt ctx) with ⟨st, out⟩
      have hst := hcap st out hl
      cases out with
      | found r =>
        by_cases hr : r = ""
        · have hfc := fallbackAndFinish_calls env hist msg st
          simp [send_message, hl, responsePhase, hr, hfc]
          omega
        · simp [send_message, hl, responsePhase, hr, finishOk]
          omega
      | raised e => simp [send_message, hl, abortErr]; omega
      | noResp =>
        have hfc := fallbackAndFinish_calls env hist msg st
        simp [send_message, hl, responsePhase, hfc]
        omega
  · intro st r hl
    refine ⟨hcap st _ hl, fun hr => ⟨?_, ?_⟩, fun hr => ?_⟩
    · simp [send_message, hl, responsePhase, hr, finishOk]
    · simp [send_message, hl, responsePhase, hr, finishOk]
    · have hfc := fallbackAndFinish_calls env hist msg st
      simp [send_message, hl, responsePhase, hr, hfc]
  · intro st hl
    refine ⟨hcap st _ hl, ?_, ?_⟩
    · have hfc := fallbackAndFinish_calls env hist msg st
      simp [send_message, hl, responsePhase, hfc]
    · intro reply hrep
      have hresp := fallbackAndFinish_response env hist msg st reply hrep
      simp [send_message, hl, responsePhase, hresp]

set_option maxRecDepth 8000 in
/-- Witness for C1: tagless replies exhaust all thirty iterations and
trigger the fallback (31 calls in total); a non-empty tagged reply ends
the run after one call with no fallback; a tagged reply that strips to
the empty string fails the truthiness test and triggers the fallback for
a second call. -/
theorem send_message_llm_call_bound_witness :
    loopGo envPlain max_iterations (initSt ctxEmpty) = (stAfterLoop, LoopOut.noResp) ∧
    (send_message envPlain true [] "hi" ctxEmpty true).calls = stAfterLoop.calls + 1 ∧
    (send_message envPlain true [] "hi" ctxEmpty true).calls ≤ max_iterations + 1 ∧
    (send_message envRespond true [] "hi" ctxEmpty true).calls = stRespond.calls ∧
    (send_message envEmptyTag true [] "hi" ctxEmpty true).calls = stEmptyTag.calls + 1 := by
  have hl : loopGo envPlain max_iterations (initSt ctxEmpty) =
      (stAfterLoop, LoopOut.noResp) := by decide
  have hlR : loopGo envRespond max_iterations (initSt ctxEmpty) =
      (stRespond, LoopOut.found "hello") := by decide
  have hlE : loopGo envEmptyTag max_iterations (initSt ctxEmpty) =
      (stEmptyTag, LoopOut.found "") := by decide
  have h := send_message_llm_call_bound envPlain true [] "hi" ctxEmpty
  have hR := send_message_llm_call_bound envRespond true [] "hi" ctxEmpty
  have hE := send_message_llm_call_bound envEmptyTag true [] "hi" ctxEmpty
  exact ⟨hl, (h.2.2 stAfterLoop hl).2.1, h.1,
    ((hR.2.1 stRespond "hello" hlR).2.1 (by decide)).1,
    (hE.2.1 stEmptyTag "" hlE).2.2 rfl⟩

theorem responsePhase_success_shape (env : Env) (hist : List Msg) (msg : String)
    (fr : Option String) (st : LoopSt)
    (h : (responsePhase env hist msg fr st).result.success = true) :
    ∃ r, (responsePhase env hist msg fr st).result.response = some r ∧
      (responsePhase env hist msg fr st).history =
        hist ++
          [{ role := "user", content := msg }, { role := "assistant", content := r }] := by
  have hfb : ∀ st2 : LoopSt,
      (fallbackAndFinish env hist msg st2).result.success = true →
      ∃ r, (fallbackAndFinish env hist msg st2).result.response = some r ∧
        (fallbackAndFinish env hist msg st2).history =
          hist ++
            [{ role := "user", content := msg },
              { role := "assistant", content := r }] := by
    intro st2 h2
    rcases hf : fallbackCall env st2 with ⟨st3, res⟩
    cases res with
    | error e => simp [fallbackAndFinish, hf, abortErr] at h2
    | ok ar =>
      refine ⟨ar, ?_, ?_⟩ <;> simp [fallbackAndFinish, hf, finishOk]
  cases fr with
  | none => exact hfb st h
  | some r =>
    by_cases hr : r = ""
    · have heq : responsePhase env hist msg (some r) st =
          fallbackAndFinish env hist msg st := by
        simp [responsePhase, hr]
      rw [heq] at h ⊢
      exact hfb st h
    · have heq : responsePhase env hist msg (some r) st =
          finishOk hist msg r st := by
        simp [responsePhase, hr]
      rw [heq] at h ⊢
      refine ⟨r, ?_, ?_⟩ <;> simp [finishOk]

/-- Claim C2: whenever `send_message` returns success, the persistent chat
history has grown by exactly the user message followed by one assistant
message holding the returned response — whatever number of tool
iterations ran in between; assistant tool-call messages and tool-role
results only ever live in the transient per-call state. -/
theorem send_message_appends_exactly_two (env : Env) (ci : Bool) (hist : List Msg)
    (msg : String) (ctx : Ctx) (ut : Bool)
    (h : (send_message env ci hist msg ctx ut).result.success = true) :
    ∃ r, (send_message env ci hist msg ctx ut).result.response = some r ∧
      (send_message env ci hist msg ctx ut).history =
        hist ++
          [{ role := "user", content := msg }, { role := "assistant", content := r }] := by
  cases ci with
  | false => simp [send_message] at h
  | true =>
    cases ut with
    | true =>
      rcases hl : loopGo env max_iterations (initSt ctx) with ⟨st, out⟩
      cases out with
      | found r =>
        have heq : send_message env true hist msg ctx true =
            responsePhase env hist msg (some r) st := by
          simp [send_message, hl]
        rw [heq] at h ⊢
        exact responsePhase_success_shape env hist msg (some r) st h
      | raised e => simp [send_message, hl, abortErr] at h
      | noResp =>
        have heq : send_message env true hist msg ctx true =
            responsePhase env hist msg none st := by
          simp [send_message, hl]
        rw [heq] at h ⊢
        exact responsePhase_success_shape env hist msg none st h
    | false =>
      cases hllm : env.llm 0 false (env.buildSystemMessage ctx ++ directSuffixText) with
      | error e => simp [send_message, hllm, abortErr] at h
      | ok reply =>
        have heq : send_message env true hist msg ctx false =
            responsePhase env hist msg (directRespOf reply)
              { initSt ctx with calls := 1 } := by
          simp [send_message, hllm]
        rw [heq] at h ⊢
        exact responsePhase_success_shape env hist msg (directRespOf reply)
          { initSt ctx with calls := 1 } h

/-- Witness for C2 on a run whose first reply carries a tagged response. -/
theorem send_message_appends_exactly_two_witness :
    ∃ r, (send_message envRespond true [] "hi" ctxEmpty true).result.response = some r ∧
      (send_message envRespond true [] "hi" ctxEmpty true).history =
        [] ++
          [{ role := "user", content := "hi" }, { role := "assistant", content := r }] :=
  send_message_appends_exactly_two envRespond true [] "hi" ctxEmpty true (by decide)

/-- Claim C5: when a completion call raises — in the loop, in the
fallback, or in direct mode — the run aborts with `success=false` and the
human-readable message "Error sending message: ...", and the chat history
is exactly as before the call: `abortErr` keeps `history` untouched, the
appends happening only in `finishOk` after every call has succeeded. -/
theorem send_message_abort_on_llm_failure (env : Env) (hist : List Msg) (msg : String)
    (ctx : Ctx) (e : String) :
    (∀ st, loopGo env max_iterations (initSt ctx) = (st, LoopOut.raised e) →
      send_message env true hist msg ctx true = abortErr hist e st) ∧
    (∀ st, loopGo env max_iterations (initSt ctx) = (st, LoopOut.noResp) →
      env.llm st.calls false (fallbackPrompt env st.ctx st.tool_results) =
        Except.error e →
      send_message env true hist msg ctx true =
        abortErr hist e { st with calls := st.calls + 1 }) ∧
    (env.llm 0 false (env.buildSystemMessage ctx ++ directSuffixText) = Except.error e →
      send_message env true hist msg ctx false =
        abortErr hist e { initSt ctx with calls := 1 }) := by
  refine ⟨?_, ?_, ?_⟩
  · intro st hl
    simp [send_message, hl]
  · intro st hl hfe
    have hf : fallbackCall env st =
        ({ st with calls := st.calls + 1 }, Except.error e) := by
      simp [fallbackCall, hfe]
    simp [send_message, hl, responsePhase, fallbackAndFinish, hf]
  · intro hfe
    simp [send_message, hfe]

set_option maxRecDepth 8000 in
/-- Witness for C5: aborts on a first-call failure, on a fallback-call
failure after an exhausted loop, and on a direct-mode failure, each with
the history untouched. -/
theorem send_message_abort_on_llm_failure_witness :
    loopGo envFail max_iterations (initSt ctxEmpty) =
      ({ initSt ctxEmpty with calls := 1 }, LoopOut.raised "boom") ∧
    send_message envFail true [] "hi" ctxEmpty true =
      abortErr [] "boom" { initSt ctxEmpty with calls := 1 } ∧
    send_message envLateFail true [] "hi" ctxEmpty true =
      abortErr [] "boom" { stAfterLoop with calls := stAfterLoop.calls + 1 } ∧
    send_message envFail true [] "hi" ctxEmpty false =
      abortErr [] "boom" { initSt ctxEmpty with calls := 1 } := by
  have h1 := send_message_abort_on_llm_failure envFail [] "hi" ctxEmpty "boom"
  have h2 := send_message_abort_on_llm_failure envLateFail [] "hi" ctxEmpty "boom"
  have hl2 : loopGo envLateFail max_iterations (initSt ctxEmpty) =
      (stAfterLoop, LoopOut.noResp) := by decide
  exact ⟨by decide, h1.1 _ (by decide), h2.2.1 stAfterLoop hl2 (by rfl), h1.2.2 (by rfl)⟩

theorem strAssoc (a b c : String) : a ++ b ++ c = a ++ (b ++ c) := by
  cases a with | mk la =>
  cases b with | mk lb =>
  cases c with | mk lc =>
  show String.mk ((la ++ lb) ++ lc) = String.mk (la ++ (lb ++ lc))
  rw [List.append_assoc]

/-- Claim C8 (documenting the defect): when a reply carries non-empty
content with no tags and no tool calls, the controller does inject the
one-shot corrective reminder, clears it while building the next prompt
(which contains the reminder text), and loops on; but when such a reply
has `None` (or empty) content before any iteration assigned
`response_match`, line 254 reads the unassigned variable and the run
aborts with an `UnboundLocalError` instead of recovering. -/
theorem stuck_recovery_and_contentless_crash :
    send_message envContentless true [] "hello" ctxEmpty true =
      abortErr [] unboundLocalMsg { initSt ctxEmpty with calls := 1 } ∧
    thinkingStep envPlain (initSt ctxEmpty) = (stStuck, IterOut.next) ∧
    (thinkingPrompt envPlain stStuck.ctx stStuck.tool_results).2.needs_action = false ∧
    (thinkingPrompt envPlain stStuck.ctx stStuck.tool_results).2.reminder = "" ∧
    strContains (thinkingPrompt envPlain stStuck.ctx stStuck.tool_results).1
      stuckReminderText = true := by
  refine ⟨by rfl, by rfl, by rfl, by rfl, ?_⟩
  have hp : (thinkingPrompt envPlain stStuck.ctx stStuck.tool_results).1 =
      ((envPlain.buildSystemMessage stStuck.ctx ++ criticalRulesText) ++ warnMark) ++
        stuckReminderText ++ "\n" := rfl
  rw [hp, strAssoc]
  exact strContains_middle _ _ _

namespace PendingResultRegistry

theorem rlookup_rupdate_self (r : Registry) (id : String) (e0 e : PendingEntry)
    (h : rlookup r id = some e0) : rlookup (rupdate r id e) id = some e := by
  induction r with
  | nil => simp [rlookup] at h
  | cons kv t ih =>
    obtain ⟨k, e1⟩ := kv
    by_cases hk : k = id
    · simp [rlookup, rupdate, hk]
    · simp only [rlookup, rupdate, hk, if_false] at h ⊢
      exact ih h

theorem rlookup_rupdate_other (r : Registry) (id id2 : String) (e : PendingEntry)
    (h : id ≠ id2) : rlookup (rupdate r id e) id2 = rlookup r id2 := by
  induction r with
  | nil => rfl
  | cons kv t ih =>
    obtain ⟨k, e1⟩ := kv
    by_cases hk : k = id
    · subst hk
      simp [rlookup, rupdate, h]
    · by_cases hk2 : k = id2
      · subst hk2
        simp [rlookup, rupdate, hk]
      · simp only [rlookup, rupdate, hk, hk2, if_false]
        exact ih

theorem consumed_stable (id : String) (op : RegOp)
    (hop : ∀ b, op ≠ RegOp.register id b) (r : Registry) (e : PendingEntry)
    (h : rlookup r id = some e) (hc : e.consumed = true) :
    ∃ e2, rlookup (applyOp r op) id = some e2 ∧ e2.consumed = true := by
  cases op with
  | register id2 b =>
    have hne : id2 ≠ id := by
      intro heq
      exact hop b (by rw [heq])
    refine ⟨e, ?_, hc⟩
    simp only [applyOp, register, rlookup, hne, if_false]
    exact h
  | complete id2 resp =>
    by_cases hid : id2 = id
    · subst hid
      simp only [applyOp, complete, h]
      by_cases hp : e.is_pending = true
      · rw [if_pos hp]
        exact ⟨_, rlookup_rupdate_self r id2 e _ h, hc⟩
      · rw [if_neg hp]
        exact ⟨e, h, hc⟩
    · simp only [applyOp, complete]
      cases h2 : rlookup r id2 with
      | none => exact ⟨e, h, hc⟩
      | some e2 =>
        by_cases hp : e2.is_pending = true
        · refine ⟨e, ?_, hc⟩
          show rlookup (if e2.is_pending = true then
              rupdate r id2 { e2 with response := some resp, is_pending := false }
            else r) id = some e
          rw [if_pos hp, rlookup_rupdate_other r id2 id _ hid]
          exact h
        · refine ⟨e, ?_, hc⟩
          show rlookup (if e2.is_pending = true then
              rupdate r id2 { e2 with response := some resp, is_pending := false }
            else r) id = some e
          rw [if_neg hp]
          exact h
  | take id2 =>
    by_cases hid : id2 = id
    · subst hid
      simp only [applyOp, take, h]
      rw [if_pos hc]
      exact ⟨e, h, hc⟩
    · simp only [applyOp, take]
      cases h2 : rlookup r id2 with
      | none => exact ⟨e, h, hc⟩
      | some e2 =>
        by_cases hc2 : e2.consumed = true
        · refine ⟨e, ?_, hc⟩
          show rlookup ((if e2.consumed = true then (none, r)
            else (some e2, rupdate r id2 { e2 with consumed := true })).2) id = some e
          rw [if_pos hc2]
          exact h
        · refine ⟨e, ?_, hc⟩
          show rlookup ((if e2.consumed = true then (none, r)
            else (some e2, rupdate r id2 { e2 with consumed := true })).2) id = some e
          rw [if_neg hc2]
          show rlookup (rupdate r id2 { e2 with consumed := true }) id = some e
          rw [rlookup_rupdate_other r id2 id _ hid]
          exact h

theorem consumed_stable_ops (id : String) :
    ∀ (ops : List RegOp), (∀ b, RegOp.register id b ∉ ops) →
      ∀ (r : Registry) (e : PendingEntry), rlookup r id = some e → e.consumed = true →
        ∃ e2, rlookup (applyOps r ops) id = some e2 ∧ e2.consumed = true := by
  intro ops
  induction ops with
  | nil =>
    intro _ r e h hc
    exact ⟨e, h, hc⟩
  | cons op rest ih =>
    intro hops r e h hc
    have hop : ∀ b, op ≠ RegOp.register id b := by
      intro b heq
      exact hops b (by rw [heq]; exact List.mem_cons_self _ _)
    have hrest : ∀ b, RegOp.register id b ∉ rest := by
      intro b hmem
      exact hops b (List.mem_cons_of_mem _ hmem)
    obtain ⟨e2, h2, hc2⟩ := consumed_stable id op hop r e h hc
    exact ih hrest (applyOp r op) e2 h2 hc2

/-- Claim C9: `take` returns a non-nil result at most once per id — after
a successful `take`, every later `take` for that id returns `none` across
any sequence of registry operations that does not re-register the id —
and `complete` moves an entry pending→complete at most once, being an
idempotent no-op on an unknown or already-completed id. -/
theorem take_consumes_once :
    (∀ (r : Registry) (id : String) (e : PendingEntry) (r1 : Registry),
      take r id = (some e, r1) →
      ∀ ops : List RegOp, (∀ b, RegOp.register id b ∉ ops) →
        (take (applyOps r1 ops) id).1 = none) ∧
    (∀ (r : Registry) (id resp : String), rlookup r id = none →
      complete r id resp = r) ∧
    (∀ (r : Registry) (id resp : String) (e : PendingEntry),
      rlookup r id = some e → e.is_pending = false → complete r id resp = r) := by
  refine ⟨?_, ?_, ?_⟩
  · intro r id e r1 htake ops hops
    cases hrl : rlookup r id with
    | none =>
      simp only [take, hrl] at htake
      injection htake with h1 h2
      exact Option.noConfusion h1
    | some e0 =>
      by_cases hc0 : e0.consumed = true
      · simp only [take, hrl, hc0, if_true] at htake
        injection htake with h1 h2
        exact Option.noConfusion h1
      · simp only [take, hrl, hc0] at htake
        injection htake with hfst hsnd
        have he0 : e0 = e := by injection hfst
        subst he0
        have hup : rlookup r1 id = some { e0 with consumed := true } := by
          rw [← hsnd]
          exact rlookup_rupdate_self r id e0 _ hrl
        obtain ⟨e2, h2, hc2⟩ := consumed_stable_ops id ops hops r1 _ hup rfl
        simp [take, h2, hc2]
  · intro r id resp h
    simp [complete, h]
  · intro r id resp e h hp
    simp [complete, h, hp]

/-- Witness for C9: an entry registered and taken stays unavailable to
later takes across an interleaved `complete`; `complete` is a no-op on an
empty registry and on a completed entry. -/
theorem take_consumes_once_witness :
    (take (applyOps
        [("a1",
          { brief_message := "m", response := none, is_pending := true, consumed := true })]
        [RegOp.complete "a1" "done"]) "a1").1 = none ∧
    complete [] "a1" "x" = [] ∧
    complete
        [("a1",
          { brief_message := "m", response := some "done",
            is_pending := false, consumed := false })] "a1" "y" =
      [("a1",
        { brief_message := "m", response := some "done",
          is_pending := false, consumed := false })] := by
  refine ⟨?_, ?_, ?_⟩
  · exact take_consumes_once.1 (register [] "a1" "m") "a1"
      { brief_message := "m", response := none, is_pending := true, consumed := false }
      [("a1",
        { brief_message := "m", response := none, is_pending := true, consumed := true })]
      (by decide) [RegOp.complete "a1" "done"] (by intro b hmem; simp at hmem)
  · exact take_consumes_once.2.1 [] "a1" "x" rfl
  · exact take_consumes_once.2.2 _ "a1" "y"
      { brief_message := "m", response := some "done",
        is_pending := false, consumed := false } (by decide) rfl

end PendingResultRegistry
